import Mathlib

/-!
Verification of the streaming-relay core of the ai-arena repository.

The definitions below are shallow embeddings of:

- the three upstream streaming adapters of `src/lib/ai-providers.ts`
  (`OpenAIProvider.generateStreamingResponse`,
  `AnthropicProvider.generateStreamingResponse`,
  `OllamaProvider.generateStreamingResponse`), which share one
  buffer/split/hold-back-partial-line loop and differ only in the per-line
  body;
- the prompt builder `buildConversationHistory`, the request validation and
  the SSE relay of `src/app/api/chat/route.ts`;
- the persona prompts of `src/lib/system-prompts.ts`;
- the browser consumer loops of `src/hooks/use-ai-debate.ts` and
  `src/hooks/use-hybrid-ai.ts`.

Strings of the wire model are `List Char`, so a chunk boundary can fall
between any two characters of the upstream stream (the `TextDecoder`
invoked with `stream: true` already resolves byte-level UTF-8 boundaries
below this level).  `JSON.parse` is a platform function, not repository
code; it is modelled per adapter by an oracle returning the record view the
adapter reads (or `none` for a parse failure), and universally quantified
wherever a claim ranges over all byte streams.
-/

namespace AiArena

/-- Character strings of the wire model: JavaScript strings at the
code-point level. -/
abbrev Str := List Char

/-- Whitespace test backing the model of `String.prototype.trim` (the
ASCII whitespace characters that occur in these wire formats). -/
def jsWhitespace (c : Char) : Bool :=
  c = ' ' || c = '\t' || c = '\n' || c = '\r' || c = '\x0b' || c = '\x0c'

/-- Model of JavaScript `line.trim()`: strip leading and trailing
whitespace. -/
def jsTrim (s : Str) : Str :=
  ((s.dropWhile jsWhitespace).reverse.dropWhile jsWhitespace).reverse

/-- Model of JavaScript `buffer.split('\n')`: the parts between newline
characters, always at least one, with a (possibly empty) part after the
final newline.  Mirrors `const lines = buffer.split('\n')` in all three
adapters. -/
def jsSplitNl : Str → List Str
  | [] => [[]]
  | c :: cs =>
    if c = '\n' then [] :: jsSplitNl cs
    else
      match jsSplitNl cs with
      | [] => [[c]]
      | l :: ls => (c :: l) :: ls

/-- Action provoked by one complete line inside an adapter loop body:
ignored, a yielded fragment, a yield immediately followed by the terminal
`return` (Ollama can carry `response` and `done` in one record), or the
terminal `return` alone. -/
inductive LineAct where
  | skip
  | emit (s : Str)
  | emitStop (s : Str)
  | stop
deriving DecidableEq

/-- Run the `for (const line of lines)` body over one batch of complete
lines: collect the yielded fragments and report whether the generator
executed its terminal `return`, after which the remaining lines of the
batch are discarded. -/
def runLines (handle : Str → LineAct) : List Str → List Str × Bool
  | [] => ([], false)
  | l :: ls =>
    match handle l with
    | .skip => runLines handle ls
    | .emit s =>
      let r := runLines handle ls
      (s :: r.1, r.2)
    | .emitStop s => ([s], true)
    | .stop => ([], true)

/-- The shared adapter read loop (`ai-providers.ts`, identical in the three
`generateStreamingResponse` methods): append the incoming chunk to the
carried buffer, split on newlines, hold back the trailing partial line as
the new buffer (`buffer = lines.pop() || ''`), process the complete lines,
and stop as soon as the line handler reaches the terminal signal.  The
residual buffer is dropped when the upstream reader reports `done`,
exactly as in the source.  Returns the yielded fragments and whether the
terminal signal was reached. -/
def pumpStream (handle : Str → LineAct) : Str → List Str → List Str × Bool
  | _, [] => ([], false)
  | buffer, chunk :: chunks =>
    let parts := jsSplitNl (buffer ++ chunk)
    let lines := parts.dropLast
    let newBuffer := parts.getLastD []
    let r := runLines handle lines
    if r.2 then (r.1, true)
    else
      let rest := pumpStream handle newBuffer chunks
      (r.1 ++ rest.1, rest.2)

/-- View of `JSON.parse(trimmed.slice(6))` for the OpenAI adapter: the one
field the code reads, `json.choices?.[0]?.delta?.content` (absent or a
string).  A top-level `none` models a `JSON.parse` failure. -/
structure OpenAIEvent where
  deltaContent : Option Str
deriving DecidableEq

/-- Per-line body of `OpenAIProvider.generateStreamingResponse`
(`ai-providers.ts` lines 141-157), parameterised by the JSON oracle `jp`:
empty lines are skipped, the `data: [DONE]` sentinel terminates, lines
without the `data: ` marker are skipped, parse failures are skipped, and a
truthy delta content is yielded. -/
def openaiHandle (jp : Str → Option OpenAIEvent) (line : Str) : LineAct :=
  let trimmed := jsTrim line
  if trimmed = [] then .skip
  else if trimmed = "data: [DONE]".toList then .stop
  else if "data: ".toList.isPrefixOf trimmed then
    match jp (trimmed.drop 6) with
    | none => .skip
    | some ev =>
      match ev.deltaContent with
      | some c => if c = [] then .skip else .emit c
      | none => .skip
  else .skip

/-- View of `JSON.parse(trimmed.slice(6))` for the Anthropic adapter: the
fields the code reads, `json.type` and `json.delta?.text`. -/
structure AnthropicEvent where
  type : Option Str
  deltaText : Option Str
deriving DecidableEq

/-- Per-line body of `AnthropicProvider.generateStreamingResponse`
(`ai-providers.ts` lines 313-332): a `content_block_delta` record with a
truthy `delta.text` yields that text, and a `message_stop` record
terminates; the two type strings are distinct, so no single record does
both. -/
def anthropicHandle (jp : Str → Option AnthropicEvent) (line : Str) : LineAct :=
  let trimmed := jsTrim line
  if trimmed = [] then .skip
  else if "data: ".toList.isPrefixOf trimmed then
    match jp (trimmed.drop 6) with
    | none => .skip
    | some ev =>
      if ev.type = some "content_block_delta".toList then
        match ev.deltaText with
        | some t => if t = [] then .skip else .emit t
        | none => .skip
      else if ev.type = some "message_stop".toList then .stop
      else .skip
  else .skip

/-- View of `JSON.parse(trimmed)` for the Ollama adapter: `json.response`
(absent or a string) and the truthiness of `json.done`. -/
structure OllamaEvent where
  response : Option Str
  done : Bool
deriving DecidableEq

/-- Per-line body of `OllamaProvider.generateStreamingResponse`
(`ai-providers.ts` lines 475-493): a truthy `response` is yielded, then a
truthy `done` terminates — a single record may do both. -/
def ollamaHandle (jp : Str → Option OllamaEvent) (line : Str) : LineAct :=
  let trimmed := jsTrim line
  if trimmed = [] then .skip
  else
    match jp trimmed with
    | none => .skip
    | some ev =>
      match ev.response with
      | some r =>
        if r = [] then (if ev.done then .stop else .skip)
        else if ev.done then .emitStop r
        else .emit r
      | none => if ev.done then .stop else .skip

/-- Specification companion of `jsSplitNl`: the complete lines of a string
paired with its trailing partial line. -/
def splitCl : Str → List Str × Str
  | [] => ([], [])
  | c :: cs =>
    let p := splitCl cs
    if c = '\n' then ([] :: p.1, p.2)
    else
      match p.1 with
      | [] => ([], c :: p.2)
      | l :: t => ((c :: l) :: t, p.2)

theorem jsSplitNl_eq_splitCl (s : Str) :
    jsSplitNl s = (splitCl s).1 ++ [(splitCl s).2] := by
  induction s with
  | nil => rfl
  | cons c cs ih =>
    by_cases h : c = '\n'
    · simp [jsSplitNl, splitCl, h, ih]
    · simp only [jsSplitNl, splitCl, if_neg h, ih]
      cases hp : (splitCl cs).1 <;> simp [hp]

theorem dropLast_jsSplitNl (s : Str) :
    (jsSplitNl s).dropLast = (splitCl s).1 := by
  rw [jsSplitNl_eq_splitCl]
  exact List.dropLast_concat

theorem getLastD_jsSplitNl (s : Str) :
    (jsSplitNl s).getLastD [] = (splitCl s).2 := by
  rw [jsSplitNl_eq_splitCl, List.getLastD_eq_getLast?, List.getLast?_append]
  rfl

theorem pumpStream_cons (handle : Str → LineAct) (buffer chunk : Str)
    (chunks : List Str) :
    pumpStream handle buffer (chunk :: chunks) =
      (let r := runLines handle (splitCl (buffer ++ chunk)).1
       if r.2 then (r.1, true)
       else
         let rest := pumpStream handle (splitCl (buffer ++ chunk)).2 chunks
         (r.1 ++ rest.1, rest.2)) := by
  simp only [pumpStream, dropLast_jsSplitNl, getLastD_jsSplitNl]

theorem splitCl_append (a b : Str) :
    splitCl (a ++ b) =
      ((splitCl a).1 ++ (splitCl ((splitCl a).2 ++ b)).1,
        (splitCl ((splitCl a).2 ++ b)).2) := by
  induction a with
  | nil => simp [splitCl]
  | cons c cs ih =>
    by_cases h : c = '\n'
    · subst h
      simp [splitCl, ih]
    · simp only [List.cons_append, splitCl, if_neg h, ih]
      cases hp : (splitCl cs).1 with
      | nil =>
        simp only [hp, List.nil_append]
        cases hq : (splitCl ((splitCl cs).2 ++ b)).1 <;>
          simp [splitCl, if_neg h, hq, ih, hp]
      | cons x xs => simp [hp, ih]

theorem runLines_append (handle : Str → LineAct) (xs ys : List Str) :
    runLines handle (xs ++ ys) =
      (if (runLines handle xs).2 then runLines handle xs
       else ((runLines handle xs).1 ++ (runLines handle ys).1,
         (runLines handle ys).2)) := by
  induction xs with
  | nil => simp [runLines]
  | cons l ls ih =>
    rw [List.cons_append, runLines, runLines]
    cases hl : handle l with
    | skip => exact ih
    | emit s =>
      rw [ih]
      by_cases hs : (runLines handle ls).2 <;> simp [hs]
    | emitStop s => simp
    | stop => simp

theorem pumpStream_merge (handle : Str → LineAct) (buffer c₁ c₂ : Str)
    (chunks : List Str) :
    pumpStream handle buffer (c₁ :: c₂ :: chunks) =
      pumpStream handle buffer ((c₁ ++ c₂) :: chunks) := by
  rw [pumpStream_cons, pumpStream_cons, pumpStream_cons]
  rw [show buffer ++ (c₁ ++ c₂) = (buffer ++ c₁) ++ c₂ from
    (List.append_assoc buffer c₁ c₂).symm]
  rw [splitCl_append (buffer ++ c₁) c₂]
  simp only [runLines_append]
  by_cases h1 : (runLines handle (splitCl (buffer ++ c₁)).1).2
  · simp [h1]
  · simp only [h1, if_false, Bool.false_eq_true]
    by_cases h2 :
        (runLines handle (splitCl ((splitCl (buffer ++ c₁)).2 ++ c₂)).1).2 <;>
      simp [h2, List.append_assoc]

theorem pumpStream_concat (handle : Str → LineAct) :
    (chunks : List Str) →
      pumpStream handle [] chunks = pumpStream handle [] [chunks.flatten]
  | [] => by simp [pumpStream, runLines, jsSplitNl]
  | [c] => by simp
  | c₁ :: c₂ :: cs => by
    rw [pumpStream_merge]
    rw [pumpStream_concat handle ((c₁ ++ c₂) :: cs)]
    simp [List.append_assoc]
termination_by chunks => chunks.length

theorem pumpStream_stopped_append (handle : Str → LineAct) (buffer : Str)
    (chunks more : List Str) (out : List Str)
    (h : pumpStream handle buffer chunks = (out, true)) :
    pumpStream handle buffer (chunks ++ more) = (out, true) := by
  induction chunks generalizing buffer out with
  | nil => simp [pumpStream] at h
  | cons c cs ih =>
    rw [pumpStream_cons] at h
    rw [List.cons_append, pumpStream_cons]
    by_cases h1 : (runLines handle (splitCl (buffer ++ c)).1).2
    · simp only [h1, if_true] at h ⊢
      exact h
    · simp only [h1, if_false, Bool.false_eq_true] at h ⊢
      obtain ⟨hout, hstop⟩ := Prod.mk.injEq .. ▸ h
      have hrec :
          pumpStream handle (splitCl (buffer ++ c)).2 cs =
            ((pumpStream handle (splitCl (buffer ++ c)).2 cs).1, true) := by
        rw [← hstop]
      rw [ih _ _ hrec]
      simp [← hout, hstop]

/-- C1.  Chunk-boundary independence: for each of the three upstream
adapters (OpenAI-style SSE, Anthropic-style SSE, Ollama newline-delimited
JSON), for every JSON-parse oracle, and for every partition of the
upstream character stream into chunks — including splits that fall in the
middle of a record — the fragment sequence (and terminal flag) produced by
the adapter loop equals the one produced when the same characters arrive
as one single chunk. -/
theorem chunk_boundary_independence
    (jpO : Str → Option OpenAIEvent) (jpA : Str → Option AnthropicEvent)
    (jpL : Str → Option OllamaEvent) (chunks : List Str) :
    pumpStream (openaiHandle jpO) [] chunks =
      pumpStream (openaiHandle jpO) [] [chunks.flatten] ∧
    pumpStream (anthropicHandle jpA) [] chunks =
      pumpStream (anthropicHandle jpA) [] [chunks.flatten] ∧
    pumpStream (ollamaHandle jpL) [] chunks =
      pumpStream (ollamaHandle jpL) [] [chunks.flatten] :=
  ⟨pumpStream_concat (openaiHandle jpO) chunks,
    pumpStream_concat (anthropicHandle jpA) chunks,
    pumpStream_concat (ollamaHandle jpL) chunks⟩

/-- JSON text of an Anthropic `content_block_delta` record whose delta
text is `Hi`. -/
def anthropicDeltaHiJson : Str :=
  "\x7b\"type\":\"content_block_delta\",\"delta\":\x7b\"text\":\"Hi\"\x7d\x7d".toList

/-- JSON text of an Anthropic `message_stop` record. -/
def anthropicStopJson : Str := "\x7b\"type\":\"message_stop\"\x7d".toList

/-- JSON text of a further Anthropic `content_block_delta` record placed
after the `message_stop` record in the scenario stream. -/
def anthropicDeltaMoreJson : Str :=
  "\x7b\"type\":\"content_block_delta\",\"delta\":\x7b\"text\":\"MORE\"\x7d\x7d".toList

/-- Interpretation of the platform `JSON.parse` on the three records of
the end-to-end Anthropic scenario, following the JSON grammar: each record
maps to the `type` and `delta.text` fields the adapter reads. -/
def anthropicScenarioJson (s : Str) : Option AnthropicEvent :=
  if s = anthropicDeltaHiJson then
    some ⟨some "content_block_delta".toList, some "Hi".toList⟩
  else if s = anthropicStopJson then some ⟨some "message_stop".toList, none⟩
  else if s = anthropicDeltaMoreJson then
    some ⟨some "content_block_delta".toList, some "MORE".toList⟩
  else none

/-- The Anthropic-framed scenario byte stream: one `content_block_delta`
event with delta text `Hi`, one `message_stop` event, and a further
complete delta event already sitting in the same buffer after the terminal
event. -/
def anthropicScenarioStream : Str :=
  ("data: \x7b\"type\":\"content_block_delta\",\"delta\":\x7b\"text\":\"Hi\"\x7d\x7d\n" ++
    "data: \x7b\"type\":\"message_stop\"\x7d\n" ++
    "data: \x7b\"type\":\"content_block_delta\",\"delta\":\x7b\"text\":\"MORE\"\x7d\x7d\n").toList

set_option maxRecDepth 8000

/-- C2.  Terminal-signal behaviour: for every adapter (each with its
JSON-parse oracle) and every chunked input on which the adapter reaches
its terminal signal, appending further chunks — with any number of further
complete records — changes neither the fragment sequence nor the terminal
flag; and concretely, the Anthropic-framed stream carrying one
`content_block_delta` event with text `Hi` followed by a `message_stop`
event (with one more delta event already behind it in the same buffer)
yields exactly the fragment sequence `[Hi]` and terminates. -/
theorem terminal_signal_stops_stream :
    (∀ (jp : Str → Option OpenAIEvent) (chunks more : List Str) (out : List Str),
      pumpStream (openaiHandle jp) [] chunks = (out, true) →
      pumpStream (openaiHandle jp) [] (chunks ++ more) = (out, true)) ∧
    (∀ (jp : Str → Option AnthropicEvent) (chunks more : List Str) (out : List Str),
      pumpStream (anthropicHandle jp) [] chunks = (out, true) →
      pumpStream (anthropicHandle jp) [] (chunks ++ more) = (out, true)) ∧
    (∀ (jp : Str → Option OllamaEvent) (chunks more : List Str) (out : List Str),
      pumpStream (ollamaHandle jp) [] chunks = (out, true) →
      pumpStream (ollamaHandle jp) [] (chunks ++ more) = (out, true)) ∧
    pumpStream (anthropicHandle anthropicScenarioJson) [] [anthropicScenarioStream] =
      (["Hi".toList], true) :=
  ⟨fun jp chunks more out h => pumpStream_stopped_append (openaiHandle jp) [] chunks more out h,
    fun jp chunks more out h => pumpStream_stopped_append (anthropicHandle jp) [] chunks more out h,
    fun jp chunks more out h => pumpStream_stopped_append (ollamaHandle jp) [] chunks more out h,
    by decide⟩

/-- Witness for C2: the terminal-stop property applied to the concrete
Anthropic scenario stream, with one further chunk appended after the
terminal event. -/
theorem terminal_signal_stops_stream_witness :
    pumpStream (anthropicHandle anthropicScenarioJson) []
        ([anthropicScenarioStream] ++ ["data: lateline\n".toList]) =
      (["Hi".toList], true) :=
  terminal_signal_stops_stream.2.1 anthropicScenarioJson [anthropicScenarioStream]
    ["data: lateline\n".toList] ["Hi".toList] (by decide)

/-- Sender tag of a stored debate message
(`'user' | 'defender' | 'critic'` in `route.ts`). -/
inductive Sender where
  | user
  | defender
  | critic
deriving DecidableEq

/-- One entry of the turn-request `messages` array
(`ChatRequest['messages']` in `route.ts`): an absent optional `isWhisper`
is `false`, and an absent `targetAI` is `none`. -/
structure ReqMessage where
  id : String
  content : String
  sender : Sender
  timestamp : String
  isWhisper : Bool
  targetAI : Option String
deriving DecidableEq

/-- Role tag of a prompt entry (`AIMessage` in `ai-providers.ts`). -/
inductive MsgRole where
  | system
  | user
  | assistant
deriving DecidableEq

/-- Role-tagged prompt entry (`AIMessage` in `ai-providers.ts`). -/
structure AIMessage where
  role : MsgRole
  content : String
deriving DecidableEq

/-- The requesting AI role (`currentRole : 'defender' | 'critic'`). -/
inductive DebateRole where
  | defender
  | critic
deriving DecidableEq

/-- Display name compared against `targetAI`
(`currentRole === 'defender' ? 'River' : 'Sage'`, `route.ts:86`). -/
def aiName : DebateRole → String
  | .defender => "River"
  | .critic => "Sage"

/-- The opposing AI role. -/
def otherRole : DebateRole → DebateRole
  | .defender => .critic
  | .critic => .defender

/-- The `Sender` value of the requesting role itself. -/
def senderOf : DebateRole → Sender
  | .defender => .defender
  | .critic => .critic

/-- Body of `getDefenderSystemPrompt` (`system-prompts.ts:7-45`), with the
`config.name` interpolation and the optional personality suffix. -/
def getDefenderSystemPrompt (name : String) (personality : Option String) : String :=
  let basePrompt :=
    "You are " ++ name ++
      ", an AI assistant playing the role of \"The Defender\" in a structured debate.\n\n" ++
      "## Your Role & Mission:\n" ++
      "- **Primary Goal**: Advocate for and defend the user\x27s idea with enthusiasm and logic\n" ++
      "- **Approach**: Be supportive, constructive, and solution-oriented\n" ++
      "- **Style**: Confident but not dismissive of valid concerns\n\n" ++
      "## Core Responsibilities:\n" ++
      "1. **Champion the Idea**: Present strong supporting arguments and evidence\n" ++
      "2. **Address Criticisms**: Respond constructively to counterarguments raised by the Critic\n" ++
      "3. **Find Solutions**: When problems are identified, propose practical solutions or improvements\n" ++
      "4. **Build Momentum**: Maintain enthusiasm while being logical and fact-based\n" ++
      "5. **Collaborative Spirit**: Work toward improving the idea rather than just winning\n\n" ++
      "## Debate Guidelines:\n" ++
      "- Keep responses focused and conversational (2-4 paragraphs max)\n" ++
      "- Build upon previous arguments rather than repeating them\n" ++
      "- Acknowledge valid criticisms while providing counter-solutions\n" ++
      "- Use evidence, examples, or analogies to support your points\n" ++
      "- Stay respectful and professional throughout\n" ++
      "- Signal when you believe consensus or resolution has been reached\n\n" ++
      "## Response Format:\n" ++
      "- Lead with your strongest supporting point\n" ++
      "- Address any new criticisms from the previous exchange\n" ++
      "- Conclude with a forward-looking statement or question\n\n" ++
      "## Self-Assessment:\n" ++
      "If you believe the debate has reached a natural conclusion (consensus, thorough exploration, or clear resolution), end your response with: \"DEBATE_COMPLETE: [brief reason]\"\n\n" ++
      "Remember: Your goal is not to \"win\" but to thoroughly explore and strengthen the user\x27s idea through constructive debate."
  match personality with
  | some p => basePrompt ++ "\n\n## Your Personality:\n" ++ p
  | none => basePrompt

/-- Body of `getCriticSystemPrompt` (`system-prompts.ts:47-85`), with the
`config.name` interpolation and the optional personality suffix. -/
def getCriticSystemPrompt (name : String) (personality : Option String) : String :=
  let basePrompt :=
    "You are " ++ name ++
      ", an AI assistant playing the role of \"The Critic\" in a structured debate.\n\n" ++
      "## Your Role & Mission:\n" ++
      "- **Primary Goal**: Identify weaknesses, risks, and limitations in the user\x27s idea\n" ++
      "- **Approach**: Be thorough, analytical, and constructively challenging\n" ++
      "- **Style**: Skeptical but fair, focused on improvement rather than destruction\n\n" ++
      "## Core Responsibilities:\n" ++
      "1. **Find Flaws**: Identify potential problems, risks, and overlooked issues\n" ++
      "2. **Ask Hard Questions**: Probe assumptions and challenge key premises\n" ++
      "3. **Consider Alternatives**: Suggest different approaches or highlight opportunity costs\n" ++
      "4. **Test Viability**: Examine practical implementation challenges\n" ++
      "5. **Constructive Challenge**: Point out problems while remaining solution-focused\n\n" ++
      "## Debate Guidelines:\n" ++
      "- Keep responses focused and conversational (2-4 paragraphs max)\n" ++
      "- Raise new concerns or dig deeper into previous points\n" ++
      "- Be specific with criticisms - avoid vague objections\n" ++
      "- Acknowledge when the Defender makes valid improvements\n" ++
      "- Use real-world examples, case studies, or precedents when relevant\n" ++
      "- Stay respectful while being thorough in your analysis\n\n" ++
      "## Response Format:\n" ++
      "- Lead with your most significant concern or question\n" ++
      "- Build on previous criticisms that weren\x27t adequately addressed\n" ++
      "- End with a specific challenge or area that needs more exploration\n\n" ++
      "## Self-Assessment:\n" ++
      "If you believe the debate has reached a natural conclusion (consensus, thorough exploration, or clear resolution), end your response with: \"DEBATE_COMPLETE: [brief reason]\"\n\n" ++
      "Remember: Your goal is not to destroy the idea but to stress-test it and make it stronger through rigorous examination."
  match personality with
  | some p => basePrompt ++ "\n\n## Your Personality:\n" ++ p
  | none => basePrompt

/-- The persona prompt the route selects for the requesting role
(`route.ts:45-56`): River as Defender, Sage as Critic, no personality. -/
def personaPrompt : DebateRole → String
  | .defender => getDefenderSystemPrompt "River" none
  | .critic => getCriticSystemPrompt "Sage" none

/-- Spelling of a sender tag inside the
`Recent conversation has covered` line (JavaScript string interpolation of
the `sender` field). -/
def senderStr : Sender → String
  | .user => "user"
  | .defender => "defender"
  | .critic => "critic"

/-- The turn-position context appended to the persona prompt in
`buildConversationHistory` (`route.ts:58-70`); the join separator is
copied verbatim from the source file. -/
def contextSuffix (messages : List ReqMessage) (currentRole : DebateRole) : String :=
  let turnCount := messages.length / 2 + 1
  let recentMessages := messages.drop (messages.length - 6)
  "\n\n## Current Context:\n- This is turn " ++ toString turnCount ++
    " of the debate\n- You are responding as " ++
    (match currentRole with
     | .defender => "River (The Defender)"
     | .critic => "Sage (The Critic)") ++
    "\n- Focus on NEW points - avoid repeating previous arguments\n- Build upon the conversation so far with fresh perspectives\n\n" ++
    (if recentMessages.length > 0 then
      "Recent conversation has covered: " ++
        String.intercalate " ‚Üí " (recentMessages.map (fun m => senderStr m.sender))
    else "")

/-- The whisper skip test of `buildConversationHistory` (`route.ts:86`): a
message is skipped iff its whisper flag is set and its target differs from
the requesting role\x27s display name (an absent target differs from every
name). -/
def whisperSkip (currentRole : DebateRole) (m : ReqMessage) : Bool :=
  m.isWhisper && decide (m.targetAI ≠ some (aiName currentRole))

/-- The prompt entry produced for one retained history message
(`route.ts:90-107`): moderator messages as `user`, the requesting role\x27s
own messages as `assistant`, the other AI\x27s messages as `user` behind an
attribution label. -/
def emitEntry (currentRole : DebateRole) (m : ReqMessage) : AIMessage :=
  if m.sender = .user then ⟨.user, m.content⟩
  else if m.sender = senderOf currentRole then ⟨.assistant, m.content⟩
  else
    let otherAIName :=
      if m.sender = .defender then "River (Defender)" else "Sage (Critic)"
    ⟨.user, otherAIName ++ ": " ++ m.content⟩

/-- The history walk of `buildConversationHistory` (`route.ts:84-108`):
skip whispers aimed elsewhere, emit one prompt entry per remaining
message. -/
def historyEntries (currentRole : DebateRole) : List ReqMessage → List AIMessage
  | [] => []
  | m :: rest =>
    if whisperSkip currentRole m then historyEntries currentRole rest
    else emitEntry currentRole m :: historyEntries currentRole rest

/-- Shallow embedding of `buildConversationHistory` (`route.ts:34-111`):
system persona entry with turn context, topic entry, then the filtered
walk over the six most recent messages (`messages.slice(-6)`). -/
def buildConversationHistory (messages : List ReqMessage) (currentRole : DebateRole)
    (topic : String) : List AIMessage :=
  let recentMessages := messages.drop (messages.length - 6)
  let contextualPrompt := personaPrompt currentRole ++ contextSuffix messages currentRole
  ⟨.system, contextualPrompt⟩ ::
    ⟨.user, "Topic for debate: " ++ topic⟩ ::
      historyEntries currentRole recentMessages

/-- The retained window feeding the history section: the six most recent
messages first (`slice(-6)`), whisper filtering second — in that source
order. -/
def keptRecent (messages : List ReqMessage) (currentRole : DebateRole) : List ReqMessage :=
  (messages.drop (messages.length - 6)).filter
    (fun m => !(whisperSkip currentRole m))

theorem historyEntries_eq_map_filter (currentRole : DebateRole)
    (msgs : List ReqMessage) :
    historyEntries currentRole msgs =
      (msgs.filter (fun m => !(whisperSkip currentRole m))).map
        (emitEntry currentRole) := by
  induction msgs with
  | nil => rfl
  | cons m rest ih =>
    by_cases h : whisperSkip currentRole m <;>
      simp [historyEntries, List.filter_cons, h, ih]

theorem build_drop_two (messages : List ReqMessage) (currentRole : DebateRole)
    (topic : String) :
    (buildConversationHistory messages currentRole topic).drop 2 =
      (keptRecent messages currentRole).map (emitEntry currentRole) := by
  simp [buildConversationHistory, keptRecent, historyEntries_eq_map_filter]

theorem keptRecent_sublist_recent (messages : List ReqMessage)
    (currentRole : DebateRole) :
    List.Sublist (keptRecent messages currentRole) (messages.drop (messages.length - 6)) :=
  List.filter_sublist _

theorem keptRecent_sublist (messages : List ReqMessage) (currentRole : DebateRole) :
    List.Sublist (keptRecent messages currentRole) messages :=
  (keptRecent_sublist_recent messages currentRole).trans (List.drop_sublist _ _)

theorem build_entries_from_kept (messages : List ReqMessage) (r : DebateRole)
    (topic : String) :
    ∀ e ∈ (buildConversationHistory messages r topic).drop 2,
      ∃ m', m' ∈ keptRecent messages r ∧ e = emitEntry r m' := by
  rw [build_drop_two]
  intro e he
  obtain ⟨m', hm', rfl⟩ := List.mem_map.mp he
  exact ⟨m', hm', rfl⟩

theorem mem_keptRecent_not_skip {messages : List ReqMessage} {r : DebateRole}
    {m' : ReqMessage} (h : m' ∈ keptRecent messages r) :
    whisperSkip r m' = false := by
  have h2 := (List.mem_filter.mp h).2
  simpa using h2

/-- C3 (amended: the whisper targeted at the requesting role appears only
when it lies inside the six-message truncation window, which is cut before
whisper filtering).  A whisper targeted at the other role contributes no
entry to the requesting role\x27s built prompt, for every message history;
a whisper targeted at the requesting role that lies among the six most
recent messages is retained by the filter, in original chronological
position (the kept window is an order-preserving sublist), and the
history section is exactly the image of that kept window. -/
theorem whisper_visibility (messages : List ReqMessage) (r : DebateRole)
    (topic : String) (m : ReqMessage) (hw : m.isWhisper = true) :
    (m.targetAI = some (aiName (otherRole r)) →
      ∀ e ∈ (buildConversationHistory messages r topic).drop 2,
        ∃ m', m' ∈ keptRecent messages r ∧ m' ≠ m ∧ e = emitEntry r m') ∧
    (m.targetAI = some (aiName r) →
      m ∈ messages.drop (messages.length - 6) →
      m ∈ keptRecent messages r ∧
      List.Sublist (keptRecent messages r) (messages.drop (messages.length - 6)) ∧
      (buildConversationHistory messages r topic).drop 2 =
        (keptRecent messages r).map (emitEntry r)) := by
  constructor
  · intro ht e he
    obtain ⟨m', hm', rfl⟩ := build_entries_from_kept messages r topic e he
    refine ⟨m', hm', ?_, rfl⟩
    intro heq
    have hfalse : whisperSkip r m' = false := mem_keptRecent_not_skip hm'
    rw [heq] at hfalse
    have htrue : whisperSkip r m = true := by
      cases r <;> simp [whisperSkip, hw, ht, aiName, otherRole]
    rw [htrue] at hfalse
    exact Bool.true_eq_false ▸ hfalse
  · intro ht hmem
    have hskip : whisperSkip r m = false := by
      simp [whisperSkip, ht]
    exact ⟨List.mem_filter.mpr ⟨hmem, by simp [hskip]⟩,
      keptRecent_sublist_recent messages r,
      build_drop_two messages r topic⟩

/-- A whisper to River located among the three most recent messages. -/
def c3Whisper : ReqMessage := ⟨"w2", "secret", .user, "t2", true, some "River"⟩

/-- Three-message history containing `c3Whisper` inside the window. -/
def c3History : List ReqMessage :=
  [⟨"m1", "a1", .user, "t1", false, none⟩,
    c3Whisper,
    ⟨"m3", "a3", .defender, "t3", false, none⟩]

/-- Witness for C3: on the concrete three-message history, the whisper to
River yields no entry in Sage\x27s prompt, and is retained in River\x27s
kept window. -/
theorem whisper_visibility_witness :
    (∀ e ∈ (buildConversationHistory c3History .critic "T").drop 2,
      ∃ m', m' ∈ keptRecent c3History .critic ∧ m' ≠ c3Whisper ∧
        e = emitEntry .critic m') ∧
    c3Whisper ∈ keptRecent c3History .defender :=
  ⟨(whisper_visibility c3History .critic "T" c3Whisper rfl).1 rfl,
    ((whisper_visibility c3History .defender "T" c3Whisper rfl).2 rfl
      (by decide)).1⟩

/-- Seven-message history whose oldest message is a whisper targeted at
River, followed by six ordinary messages. -/
def c3DeepHistory : List ReqMessage :=
  [⟨"w0", "secret", .user, "t0", true, some "River"⟩,
    ⟨"m1", "a1", .user, "t1", false, none⟩,
    ⟨"m2", "a2", .defender, "t2", false, none⟩,
    ⟨"m3", "a3", .critic, "t3", false, none⟩,
    ⟨"m4", "a4", .user, "t4", false, none⟩,
    ⟨"m5", "a5", .defender, "t5", false, none⟩,
    ⟨"m6", "a6", .critic, "t6", false, none⟩]

/-- Counterexample to C3 as stated: in this seven-message history the
oldest message is a whisper targeted at River (the defender), yet no entry
of the defender\x27s built prompt carries its content — `slice(-6)` cuts
the whisper away before the whisper filter runs, so the whisper does not
appear in the prompt of the very role it addresses. -/
theorem whisper_visibility_cex :
    (⟨"w0", "secret", .user, "t0", true, some "River"⟩ : ReqMessage) ∈ c3DeepHistory ∧
    (⟨"w0", "secret", .user, "t0", true, some "River"⟩ : ReqMessage).targetAI =
      some (aiName .defender) ∧
    ∀ e ∈ buildConversationHistory c3DeepHistory .defender "T",
      e.content ≠ "secret" := by
  refine ⟨by decide, by decide, by decide⟩

/-- C4 (amended: the history section is the whisper-filtered image of the
six most recent messages — truncation applies before filtering, so the
section may hold fewer than six entries).  For every history longer than
six messages: the window is exactly six messages long, the kept list is an
order-preserving sublist of it, every history-section entry derives from a
window message, and in an eight-message history every entry derives from
the last six messages, so the two oldest contribute nothing. -/
theorem history_truncation (messages : List ReqMessage) (r : DebateRole)
    (topic : String) (h6 : 6 < messages.length) :
    (buildConversationHistory messages r topic).drop 2 =
      (keptRecent messages r).map (emitEntry r) ∧
    (messages.drop (messages.length - 6)).length = 6 ∧
    List.Sublist (keptRecent messages r) (messages.drop (messages.length - 6)) ∧
    (∀ e ∈ (buildConversationHistory messages r topic).drop 2,
      ∃ m', m' ∈ messages.drop (messages.length - 6) ∧ e = emitEntry r m') ∧
    (messages.length = 8 →
      ∀ e ∈ (buildConversationHistory messages r topic).drop 2,
        ∃ m', m' ∈ messages.drop 2 ∧ e = emitEntry r m') := by
  have hwin : ∀ e ∈ (buildConversationHistory messages r topic).drop 2,
      ∃ m', m' ∈ messages.drop (messages.length - 6) ∧ e = emitEntry r m' := by
    intro e he
    obtain ⟨m', hm', rfl⟩ := build_entries_from_kept messages r topic e he
    exact ⟨m', (List.mem_filter.mp hm').1, rfl⟩
  refine ⟨build_drop_two messages r topic, ?_,
    keptRecent_sublist_recent messages r, hwin, ?_⟩
  · rw [List.length_drop]
    omega
  · intro h8 e he
    have hres := hwin e he
    rwa [show messages.length - 6 = 2 by omega] at hres

/-- Eight-message history whose third message is a whisper targeted at
Sage; the remaining seven messages are ordinary moderator messages. -/
def c4History : List ReqMessage :=
  [⟨"m1", "b1", .user, "t1", false, none⟩,
    ⟨"m2", "b2", .user, "t2", false, none⟩,
    ⟨"m3", "b3", .user, "t3", true, some "Sage"⟩,
    ⟨"m4", "b4", .user, "t4", false, none⟩,
    ⟨"m5", "b5", .user, "t5", false, none⟩,
    ⟨"m6", "b6", .user, "t6", false, none⟩,
    ⟨"m7", "b7", .user, "t7", false, none⟩,
    ⟨"m8", "b8", .user, "t8", false, none⟩]

/-- Witness for C4: the truncation theorem applied to the concrete
eight-message history. -/
theorem history_truncation_witness :
    (buildConversationHistory c4History .defender "T").drop 2 =
      (keptRecent c4History .defender).map (emitEntry .defender) ∧
    (c4History.drop (c4History.length - 6)).length = 6 :=
  ⟨(history_truncation c4History .defender "T" (by decide)).1,
    (history_truncation c4History .defender "T" (by decide)).2.1⟩

/-- Counterexample to C4 as stated (the most recent N messages as counted
after whisper filtering): for this eight-message history, whisper
filtering leaves seven messages, whose six most recent include the entry
derived from `m2` — yet the built history section holds only five entries
and none carries `m2`\x27s content, because the code truncates to the last
six messages before filtering. -/
theorem history_truncation_cex :
    ((buildConversationHistory c4History .defender "T").drop 2).length = 5 ∧
    (c4History.filter (fun m => !(whisperSkip .defender m))).length = 7 ∧
    ∀ e ∈ (buildConversationHistory c4History .defender "T").drop 2,
      e.content ≠ "b2" := by
  refine ⟨by decide, by decide, by decide⟩

theorem emitEntry_role_ne_system (r : DebateRole) (m : ReqMessage) :
    (emitEntry r m).role ≠ .system := by
  unfold emitEntry
  split_ifs <;> simp

/-- C6.  Prompt structure: the built prompt is exactly one system entry
carrying the requesting role\x27s persona prompt augmented with the
turn-position context, then one user entry stating the debate topic, then
the history image; no later entry has the system role; and each retained
history message maps by authorship — moderator to `user`, the requesting
role to `assistant`, the other AI to `user` behind an attribution label
naming it. -/
theorem prompt_structure (messages : List ReqMessage) (r : DebateRole)
    (topic : String) :
    buildConversationHistory messages r topic =
      ⟨.system, personaPrompt r ++ contextSuffix messages r⟩ ::
        ⟨.user, "Topic for debate: " ++ topic⟩ ::
          (keptRecent messages r).map (emitEntry r) ∧
    (∀ e ∈ (buildConversationHistory messages r topic).drop 1,
      e.role ≠ .system) ∧
    ∀ m ∈ keptRecent messages r,
      (m.sender = .user → emitEntry r m = ⟨.user, m.content⟩) ∧
      (m.sender = senderOf r → emitEntry r m = ⟨.assistant, m.content⟩) ∧
      (m.sender ≠ .user → m.sender ≠ senderOf r →
        emitEntry r m =
          ⟨.user, (if m.sender = .defender then "River (Defender)"
            else "Sage (Critic)") ++ ": " ++ m.content⟩) := by
  refine ⟨?_, ?_, ?_⟩
  · simp [buildConversationHistory, keptRecent, historyEntries_eq_map_filter]
  · intro e he
    simp only [buildConversationHistory, List.drop_succ_cons, List.drop_zero] at he
    rcases List.mem_cons.mp he with rfl | he2
    · simp
    · rw [historyEntries_eq_map_filter] at he2
      obtain ⟨m', _, rfl⟩ := List.mem_map.mp he2
      exact emitEntry_role_ne_system r m'
  · intro m _
    refine ⟨?_, ?_, ?_⟩
    · intro hu
      simp [emitEntry, hu]
    · intro hself
      have hru : senderOf r ≠ Sender.user := by
        cases r <;> simp [senderOf]
      simp [emitEntry, hself, hru]
    · intro hu hself
      simp [emitEntry, hu, hself]

/-- Witness for C6: on the concrete three-message history, the defender\x27s
own message maps to an assistant entry, and no entry after the head is a
system entry. -/
theorem prompt_structure_witness :
    emitEntry .defender ⟨"m3", "a3", .defender, "t3", false, none⟩ =
      ⟨.assistant, "a3"⟩ ∧
    ∀ e ∈ (buildConversationHistory c3History .defender "T").drop 1,
      e.role ≠ .system :=
  ⟨((prompt_structure c3History .defender "T").2.2
      ⟨"m3", "a3", .defender, "t3", false, none⟩ (by decide)).2.1 rfl,
    (prompt_structure c3History .defender "T").2.1⟩

/-- C10.  An untargeted whisper (whisper flag set, `targetAI` absent) is
skipped when building for either role — the skip test compares the target
with the requesting role\x27s name, and an absent target matches neither —
so it contributes no entry to any built prompt. -/
theorem untargeted_whisper (m : ReqMessage) (hw : m.isWhisper = true)
    (ht : m.targetAI = none) :
    whisperSkip .defender m = true ∧ whisperSkip .critic m = true ∧
    ∀ (messages : List ReqMessage) (r : DebateRole) (topic : String),
      m ∉ keptRecent messages r ∧
      ∀ e ∈ (buildConversationHistory messages r topic).drop 2,
        ∃ m', m' ∈ keptRecent messages r ∧ m' ≠ m ∧ e = emitEntry r m' := by
  have hskip : ∀ r : DebateRole, whisperSkip r m = true := by
    intro r
    cases r <;> simp [whisperSkip, hw, ht, aiName]
  refine ⟨hskip .defender, hskip .critic, ?_⟩
  intro messages r topic
  constructor
  · intro hmem
    have hfalse : whisperSkip r m = false := mem_keptRecent_not_skip hmem
    rw [hskip r] at hfalse
    exact Bool.true_eq_false ▸ hfalse
  · intro e he
    obtain ⟨m', hm', rfl⟩ := build_entries_from_kept messages r topic e he
    refine ⟨m', hm', ?_, rfl⟩
    intro heq
    have hfalse : whisperSkip r m' = false := mem_keptRecent_not_skip hm'
    rw [heq, hskip r] at hfalse
    exact Bool.true_eq_false ▸ hfalse

/-- An untargeted whisper: flag set, no target recipient. -/
def c10Whisper : ReqMessage := ⟨"u1", "hidden", .user, "t1", true, none⟩

/-- Witness for C10: the concrete untargeted whisper is skipped for both
roles and excluded from the kept window of a history containing it. -/
theorem untargeted_whisper_witness :
    whisperSkip .defender c10Whisper = true ∧
    whisperSkip .critic c10Whisper = true ∧
    c10Whisper ∉ keptRecent [c10Whisper] .defender :=
  ⟨(untargeted_whisper c10Whisper rfl rfl).1,
    (untargeted_whisper c10Whisper rfl rfl).2.1,
    ((untargeted_whisper c10Whisper rfl rfl).2.2 [c10Whisper] .defender "T").1⟩

/-- Outbound Server-Sent Event, as produced by the streaming branch of
`POST` (`route.ts:189-247`): a `\x7bcontent\x7d` record, an
`\x7berror\x7d` record, or the `data: [DONE]` sentinel.  The
`JSON.stringify`/`JSON.parse` round trip over the SSE framing is modelled
by this datatype. -/
inductive OutEvent where
  | content (s : Str)
  | errorEv (s : Str)
  | doneMark
deriving DecidableEq

/-- State of the outbound `ReadableStream` controller: the events enqueued
so far, and whether the channel is closed (by `controller.close()` or by
the remote consumer going away). -/
structure Controller where
  queue : List OutEvent
  closed : Bool
deriving DecidableEq

/-- Model of `controller.enqueue`: it throws once the channel is
closed. -/
def ctrlEnqueue (c : Controller) (e : OutEvent) : Except Unit Controller :=
  if c.closed then .error () else .ok { c with queue := c.queue ++ [e] }

/-- Model of `controller.close`: closing an already-closed controller
throws. -/
def ctrlClose (c : Controller) : Except Unit Controller :=
  if c.closed then .error () else .ok { c with closed := true }

/-- The fragment-forwarding loop of the streaming branch
(`route.ts:191-211`): before each fragment the code checks
`controller.desiredSize === null` (client gone) and returns directly, with
no terminal event; an enqueue failure is caught and breaks to the
completion path.  Returns the controller and whether the loop returned
early. -/
def relayLoop (c : Controller) : List Str → Controller × Bool
  | [] => (c, false)
  | f :: fs =>
    if c.closed then (c, true)
    else
      match ctrlEnqueue c (.content f) with
      | .error _ => (c, false)
      | .ok c' => relayLoop c' fs

/-- The completion path (`route.ts:217-225`): enqueue the `data: [DONE]`
sentinel and close, both inside one try/catch, so a failure of either is
swallowed and never escapes the controller. -/
def relayFinish (c : Controller) : Controller :=
  match ctrlEnqueue c .doneMark with
  | .error _ => c
  | .ok c' =>
    match ctrlClose c' with
    | .error _ => c'
    | .ok c'' => c''

/-- The error path (`route.ts:226-237`): enqueue one `\x7berror\x7d`
event and close, both inside one try/catch. -/
def relayError (c : Controller) (msg : Str) : Controller :=
  match ctrlEnqueue c (.errorEv msg) with
  | .error _ => c
  | .ok c' =>
    match ctrlClose c' with
    | .error _ => c'
    | .ok c'' => c''

/-- The streaming branch on a cleanly terminating adapter run: forward
every fragment in order, then run the completion path — unless the loop
detected a disconnected client, in which case `start` returns
directly. -/
def relayRun (c : Controller) (frags : List Str) : Controller :=
  let r := relayLoop c frags
  if r.2 then r.1 else relayFinish r.1

/-- Consumer loop of `generateAIResponse` in `use-ai-debate.ts`
(lines 102-154): accumulate truthy `content` payloads, return the
accumulation at the `data: [DONE]` sentinel or at end of stream, and
re-raise the `Error` thrown for a truthy `error` payload (the catch block
re-throws anything that is not a JSON `SyntaxError`). -/
def consumeDebate : List OutEvent → Str → Except Str Str
  | [], acc => .ok acc
  | .doneMark :: _, acc => .ok acc
  | .errorEv e :: rest, acc =>
    if e = [] then consumeDebate rest acc else .error e
  | .content s :: rest, acc =>
    consumeDebate rest (if s = [] then acc else acc ++ s)

/-- Consumer loop of `handleServerRequest` in `use-hybrid-ai.ts`
(lines 203-235): identical framing, but its catch block swallows every
exception as a malformed-JSON skip — including the `Error` thrown for an
`error` payload — so an error event is skipped and the loop continues. -/
def consumeHybrid : List OutEvent → Str → Except Str Str
  | [], acc => .ok acc
  | .doneMark :: _, acc => .ok acc
  | .errorEv _ :: rest, acc => consumeHybrid rest acc
  | .content s :: rest, acc =>
    consumeHybrid rest (if s = [] then acc else acc ++ s)

theorem relayLoop_open (frags : List Str) (q : List OutEvent) :
    relayLoop ⟨q, false⟩ frags =
      (⟨q ++ frags.map OutEvent.content, false⟩, false) := by
  induction frags generalizing q with
  | nil => simp [relayLoop]
  | cons f fs ih =>
    simp [relayLoop, ctrlEnqueue, ih, List.append_assoc]

theorem relayRun_open (frags : List Str) :
    relayRun ⟨[], false⟩ frags =
      ⟨frags.map OutEvent.content ++ [OutEvent.doneMark], true⟩ := by
  unfold relayRun
  rw [relayLoop_open]
  simp [relayFinish, ctrlEnqueue, ctrlClose]

theorem consumeDebate_contents (frags : List Str) (acc : Str) :
    consumeDebate (frags.map OutEvent.content ++ [OutEvent.doneMark]) acc =
      .ok (acc ++ frags.flatten) := by
  induction frags generalizing acc with
  | nil => simp [consumeDebate]
  | cons f fs ih =>
    by_cases hf : f = [] <;>
      simp [consumeDebate, hf, ih, List.append_assoc]

/-- C5.  End-to-end relay ordering: on a cleanly terminating adapter run
the outbound channel carries one content event per fragment, in adapter
order with no reordering or batching, followed by exactly one terminal
marker, and the channel ends closed; the client consumer accumulates
exactly the concatenation of the fragments in delivery order.  Concretely,
fragments `Hel`, `lo`, ` world` produce exactly those three content events
in order, one terminal marker, a closed channel, and accumulated client
text `Hello world`. -/
theorem relay_ordering :
    (∀ frags : List Str,
      relayRun ⟨[], false⟩ frags =
        ⟨frags.map OutEvent.content ++ [OutEvent.doneMark], true⟩ ∧
      consumeDebate (frags.map OutEvent.content ++ [OutEvent.doneMark]) [] =
        .ok frags.flatten) ∧
    relayRun ⟨[], false⟩ ["Hel".toList, "lo".toList, " world".toList] =
      ⟨[OutEvent.content "Hel".toList, OutEvent.content "lo".toList,
        OutEvent.content " world".toList, OutEvent.doneMark], true⟩ ∧
    consumeDebate
        [OutEvent.content "Hel".toList, OutEvent.content "lo".toList,
          OutEvent.content " world".toList, OutEvent.doneMark] [] =
      .ok "Hello world".toList :=
  ⟨fun frags =>
    ⟨relayRun_open frags, by simpa using consumeDebate_contents frags []⟩,
    by decide, rfl⟩

/-- C9.  Idempotent close: a second run of either closing path (completion
or error) after the channel is already closed — whether by a previous
completion, a previous error path, or the remote consumer — is a no-op,
and no exception escapes the relay controller, although the primitive
close operation itself does throw on a closed channel. -/
theorem idempotent_close (c : Controller) (msg : Str) :
    relayFinish (relayFinish c) = relayFinish c ∧
    relayError (relayError c msg) msg = relayError c msg ∧
    relayError (relayFinish c) msg = relayFinish c ∧
    relayFinish (relayError c msg) = relayError c msg ∧
    (c.closed = true →
      relayFinish c = c ∧ relayError c msg = c ∧ ctrlClose c = .error ()) := by
  obtain ⟨q, closed⟩ := c
  cases closed <;>
    simp [relayFinish, relayError, ctrlEnqueue, ctrlClose]

/-- Witness for C9: the closing paths applied to a concrete already-closed
controller. -/
theorem idempotent_close_witness :
    relayFinish ⟨[OutEvent.doneMark], true⟩ =
      (⟨[OutEvent.doneMark], true⟩ : Controller) ∧
    ctrlClose ⟨[OutEvent.doneMark], true⟩ = .error () :=
  ⟨((idempotent_close ⟨[OutEvent.doneMark], true⟩ []).2.2.2.2 rfl).1,
    ((idempotent_close ⟨[OutEvent.doneMark], true⟩ []).2.2.2.2 rfl).2.2⟩

/-- C7 (code bug in `use-hybrid-ai.ts`).  On an outbound stream carrying
an error event, the `use-ai-debate.ts` consumer raises the typed error
carrying the upstream message, as the claim states; but the
`use-hybrid-ai.ts` server-request consumer swallows the very error it
throws inside its malformed-JSON catch block and returns the accumulated
text instead.  On the terminal marker both return the accumulation. -/
theorem error_event_swallowed :
    consumeHybrid [OutEvent.errorEv "boom".toList, OutEvent.doneMark] [] =
      .ok [] ∧
    consumeDebate [OutEvent.errorEv "boom".toList, OutEvent.doneMark] [] =
      .error "boom".toList ∧
    ∀ frags : List Str,
      consumeDebate (frags.map OutEvent.content ++ [OutEvent.doneMark]) [] =
        .ok frags.flatten :=
  ⟨rfl, rfl, fun frags => by simpa using consumeDebate_contents frags []⟩

/-- Provider selected by `createProvider` (`ai-providers.ts:640-658`): the
lookup table holds exactly the keys `openai`, `anthropic`, `ollama`. -/
inductive ProviderTag where
  | openai
  | anthropic
  | ollama
deriving DecidableEq

/-- Model of `createProvider`: `none` for an unknown provider name. -/
def createProviderTag (name : String) : Option ProviderTag :=
  if name = "openai" then some .openai
  else if name = "anthropic" then some .anthropic
  else if name = "ollama" then some .ollama
  else none

/-- One per-role provider configuration of the turn-request payload
(`provider`, `model`, optional `apiKey`). -/
structure ProviderChoice where
  provider : String
  model : String
  apiKey : Option String
deriving DecidableEq

/-- The `providers` field of the payload; each role\x27s entry may be
absent. -/
structure ProvidersField where
  defender : Option ProviderChoice
  critic : Option ProviderChoice
deriving DecidableEq

/-- The turn-request payload (`ChatRequest` in `route.ts`), with
`currentTurn` kept as the raw string so invalid values are
representable. -/
structure ChatRequestBody where
  messages : List ReqMessage
  currentTurn : String
  topic : String
  providers : Option ProvidersField
deriving DecidableEq

/-- The two environment variables read by the route; an unset variable is
the empty string, matching `process.env.X || ''`. -/
structure ApiEnv where
  openaiApiKey : String
  anthropicApiKey : String
deriving DecidableEq

/-- The environment fallback of `route.ts:149-155`: the ternary chain
selecting the env key for the provider name. -/
def envKeyFor (providerName : String) (env : ApiEnv) : String :=
  if providerName = "openai" then env.openaiApiKey
  else if providerName = "anthropic" then env.anthropicApiKey
  else ""

/-- The key resolution `currentProvider.apiKey || (env chain)`
(`route.ts:148-155`): an absent or empty request key falls through to the
environment. -/
def resolveApiKey (conf : ProviderChoice) (env : ApiEnv) : String :=
  match conf.apiKey with
  | some k => if k = "" then envKeyFor conf.provider env else k
  | none => envKeyFor conf.provider env

/-- The error message of the missing-fields rejection. -/
def missingFieldsMsg : String :=
  "Missing required fields: currentTurn, providers.defender, or providers.critic"

/-- Outcome of the pre-flight portion of `POST` (`route.ts:113-187`):
either an early JSON error response with its HTTP status, or the state in
which the upstream provider call is about to be made — at which point no
response byte and no fragment has been produced. -/
inductive PostOutcome where
  | reject (status : Nat) (error : String)
  | upstreamCall (tag : ProviderTag) (model : String) (history : List AIMessage)
deriving DecidableEq

/-- Shallow embedding of the validation phase of `POST`
(`route.ts:122-172`), in source order: the falsy-fields check
(`!currentTurn || !providers || !providers.defender || !providers.critic`),
the `currentTurn` enum check, provider-config selection, API-key
resolution with rejection for non-Ollama providers, and the
`createProvider` dispatch with rejection of unknown names.  The source\x27s
`if (!currentProvider)` re-check is unreachable once both configs passed
the first check and is not modelled. -/
def postPreflight (body : ChatRequestBody) (env : ApiEnv) : PostOutcome :=
  match body.providers with
  | none => .reject 400 missingFieldsMsg
  | some provs =>
    match provs.defender with
    | none => .reject 400 missingFieldsMsg
    | some dConf =>
      match provs.critic with
      | none => .reject 400 missingFieldsMsg
      | some cConf =>
        if body.currentTurn = "" then .reject 400 missingFieldsMsg
        else if body.currentTurn ≠ "defender" ∧ body.currentTurn ≠ "critic" then
          .reject 400 "Invalid currentTurn. Must be \"defender\" or \"critic\""
        else
          let currentProvider :=
            if body.currentTurn = "defender" then dConf else cConf
          if currentProvider.provider ≠ "ollama" ∧
              resolveApiKey currentProvider env = "" then
            .reject 400 ("API key not found for " ++ currentProvider.provider)
          else
            match createProviderTag currentProvider.provider with
            | none => .reject 400 ("Unknown provider: " ++ currentProvider.provider)
            | some tag =>
              .upstreamCall tag currentProvider.model
                (buildConversationHistory body.messages
                  (if body.currentTurn = "defender" then .defender else .critic)
                  body.topic)

/-- The provider configuration addressed by `providers[currentTurn]`. -/
def currentProviderConf (body : ChatRequestBody) : Option ProviderChoice :=
  match body.providers with
  | none => none
  | some provs =>
    if body.currentTurn = "defender" then provs.defender
    else if body.currentTurn = "critic" then provs.critic
    else none

/-- C8.  Pre-flight validation: whenever the payload\x27s `currentTurn` is
not one of the two role values, or the providers field (or either role\x27s
entry) is absent, or the addressed provider name is unknown, or a
non-Ollama provider resolves to an empty credential from both payload and
environment, the route answers with a 400 client error and never reaches
the upstream call, so zero fragments are produced. -/
theorem preflight_rejects (body : ChatRequestBody) (env : ApiEnv)
    (h :
      (body.currentTurn ≠ "defender" ∧ body.currentTurn ≠ "critic") ∨
      body.providers = none ∨
      (∃ provs, body.providers = some provs ∧
        (provs.defender = none ∨ provs.critic = none)) ∨
      (∃ conf, currentProviderConf body = some conf ∧
        createProviderTag conf.provider = none) ∨
      (∃ conf, currentProviderConf body = some conf ∧
        conf.provider ≠ "ollama" ∧
        (conf.apiKey = none ∨ conf.apiKey = some "") ∧
        envKeyFor conf.provider env = "")) :
    ∃ msg, postPreflight body env = .reject 400 msg ∧
      ∀ tag model hist, postPreflight body env ≠ .upstreamCall tag model hist := by
  suffices hs : ∃ msg, postPreflight body env = .reject 400 msg by
    obtain ⟨msg, hmsg⟩ := hs
    exact ⟨msg, hmsg, fun tag model hist hcall => by
      rw [hmsg] at hcall
      exact PostOutcome.noConfusion hcall⟩
  cases hp : body.providers with
  | none => exact ⟨missingFieldsMsg, by simp [postPreflight, hp]⟩
  | some provs =>
    cases hd : provs.defender with
    | none => exact ⟨missingFieldsMsg, by simp [postPreflight, hp, hd]⟩
    | some dConf =>
      cases hc : provs.critic with
      | none => exact ⟨missingFieldsMsg, by simp [postPreflight, hp, hd, hc]⟩
      | some cConf =>
        by_cases h0 : body.currentTurn = ""
        · exact ⟨missingFieldsMsg, by simp [postPreflight, hp, hd, hc, h0]⟩
        · by_cases h1 : body.currentTurn = "defender"
          · have hconf : currentProviderConf body = some dConf := by
              simp [currentProviderConf, hp, h1, hd]
            rcases h with ⟨hA, _⟩ | hB | ⟨provs', hps, hcase⟩ |
                ⟨conf, hcf, hunk⟩ | ⟨conf, hcf, hno, hkey, henv⟩
            · exact absurd h1 hA
            · rw [hp] at hB
              exact Option.noConfusion hB
            · rw [hp] at hps
              obtain rfl := Option.some.injEq .. ▸ hps
              rcases hcase with h' | h'
              · rw [hd] at h'
                exact Option.noConfusion h'
              · rw [hc] at h'
                exact Option.noConfusion h'
            · rw [hconf] at hcf
              obtain rfl : conf = dConf := (Option.some.injEq .. ▸ hcf).symm
              by_cases hkey0 : resolveApiKey conf env = ""
              · by_cases hol : conf.provider = "ollama"
                · rw [hol] at hunk
                  simp [createProviderTag] at hunk
                · exact ⟨"API key not found for " ++ conf.provider, by
                    simp [postPreflight, hp, hd, hc, h0, h1, hol, hkey0]⟩
              · exact ⟨"Unknown provider: " ++ conf.provider, by
                  simp [postPreflight, hp, hd, hc, h0, h1, hkey0, hunk]⟩
            · rw [hconf] at hcf
              obtain rfl : conf = dConf := (Option.some.injEq .. ▸ hcf).symm
              have hkey0 : resolveApiKey conf env = "" := by
                rcases hkey with hk | hk <;> simp [resolveApiKey, hk, henv]
              exact ⟨"API key not found for " ++ conf.provider, by
                simp [postPreflight, hp, hd, hc, h0, h1, hno, hkey0]⟩
          · by_cases h2 : body.currentTurn = "critic"
            · have hconf : currentProviderConf body = some cConf := by
                simp [currentProviderConf, hp, h1, h2, hc]
              rcases h with ⟨_, hA⟩ | hB | ⟨provs', hps, hcase⟩ |
                  ⟨conf, hcf, hunk⟩ | ⟨conf, hcf, hno, hkey, henv⟩
              · exact absurd h2 hA
              · rw [hp] at hB
                exact Option.noConfusion hB
              · rw [hp] at hps
                obtain rfl := Option.some.injEq .. ▸ hps
                rcases hcase with h' | h'
                · rw [hd] at h'
                  exact Option.noConfusion h'
                · rw [hc] at h'
                  exact Option.noConfusion h'
              · rw [hconf] at hcf
                obtain rfl : conf = cConf := (Option.some.injEq .. ▸ hcf).symm
                by_cases hkey0 : resolveApiKey conf env = ""
                · by_cases hol : conf.provider = "ollama"
                  · rw [hol] at hunk
                    simp [createProviderTag] at hunk
                  · exact ⟨"API key not found for " ++ conf.provider, by
                      simp [postPreflight, hp, hd, hc, h0, h1, h2, hol, hkey0]⟩
                · exact ⟨"Unknown provider: " ++ conf.provider, by
                    simp [postPreflight, hp, hd, hc, h0, h1, h2, hkey0, hunk]⟩
              · rw [hconf] at hcf
                obtain rfl : conf = cConf := (Option.some.injEq .. ▸ hcf).symm
                have hkey0 : resolveApiKey conf env = "" := by
                  rcases hkey with hk | hk <;> simp [resolveApiKey, hk, henv]
                exact ⟨"API key not found for " ++ conf.provider, by
                  simp [postPreflight, hp, hd, hc, h0, h1, h2, hno, hkey0]⟩
            · exact ⟨"Invalid currentTurn. Must be \"defender\" or \"critic\"", by
                simp [postPreflight, hp, hd, hc, h0, h1, h2]⟩

/-- A payload whose `currentTurn` is not a role value. -/
def c8BadTurnBody : ChatRequestBody :=
  ⟨[], "moderator", "T",
    some ⟨some ⟨"openai", "gpt-4o", some "sk-test"⟩,
      some ⟨"anthropic", "claude-3-opus-20240229", some "sk-test2"⟩⟩⟩

/-- Witness for C8: the concrete payload with `currentTurn` set to
`moderator` is rejected with a 400 and never reaches the upstream
call. -/
theorem preflight_rejects_witness :
    ∃ msg, postPreflight c8BadTurnBody ⟨"", ""⟩ = .reject 400 msg ∧
      ∀ tag model hist,
        postPreflight c8BadTurnBody ⟨"", ""⟩ ≠ .upstreamCall tag model hist :=
  preflight_rejects c8BadTurnBody ⟨"", ""⟩ (Or.inl (by decide))

end AiArena
